import Mathlib

/-!
Verification of the gps_lib NMEA sentence parsing library.

The development shallowly embeds the library core: the tokenizer
(detail::split, detail::tokenize), the checksum validator
(gps_lib::is_valid_sample) and the sentence decoder (gps_lib::parse)
together with the record types of types.h.  Raw text is modelled as a
list of characters (the inputs are ASCII, so one character stands for
one byte); machine bytes are natural numbers reduced modulo 256;
C++ doubles are modelled as exact rationals, so the arithmetic facts
below describe the ideal real-number semantics of the conversions.
-/

namespace GpsLib

/-- Raw text, one entry per ASCII byte. -/
abbrev Str := List Char

/-! ## Tokenizer (detail/split.h and detail/tokenize.h) -/

/-- Embedding of gps_lib::detail::split: splits on every occurrence of
the separator; N occurrences give N+1 tokens, the empty input gives one
empty token. -/
def split (s : Str) (sep : Char) : List Str :=
  match s with
  | [] => [[]]
  | c :: rest =>
    if c = sep then
      [] :: split rest sep
    else
      match split rest sep with
      | [] => [[c]]
      | t :: ts => (c :: t) :: ts

/-- Joining a token list with the separator; used to state that split
loses no text and keeps the tokens in order. -/
def joinWith (sep : Char) : List Str → Str
  | [] => []
  | [t] => t
  | t :: u :: ts => t ++ sep :: joinWith sep (u :: ts)

/-- Embedding of gps_lib::detail::tokenize: split on the asterisk, take
the part before it, split that on commas. -/
def tokenize (s : Str) : List Str :=
  split ((split s '*').headI) ','

/-! ## Checksum validator (tools.h) -/

/-- Hexadecimal digit characters, uppercase, as produced by
std::uppercase together with std::hex. -/
def hexDigit (n : Nat) : Char :=
  if n < 10 then Char.ofNat (48 + n) else Char.ofNat (55 + n)

/-- Rendering of a byte as exactly two uppercase hexadecimal digits,
zero padded, as produced by std::setw(2) with std::setfill of the zero
character on a value below 256. -/
def hex2 (n : Nat) : Str :=
  [hexDigit ((n / 16) % 16), hexDigit (n % 16)]

/-- Dropping of a single leading dollar sign, as done by
std::string_view::remove_prefix guarded by starts_with in tools.h. -/
def stripDollar (s : Str) : Str :=
  match s with
  | '$' :: rest => rest
  | _ => s

/-- Byte value of a character; the inputs are ASCII so this is the byte
the C++ code sees after the cast to unsigned char. -/
def byteOf (c : Char) : Nat := c.toNat % 256

/-- Embedding of gps_lib::is_valid_sample from tools.h: split on the
asterisk, require at least two parts and a nonempty checksum part, drop
a leading dollar from the body, XOR every byte starting from zero, and
compare the two-digit uppercase rendering with the checksum part. -/
def is_valid_sample (s : Str) : Bool :=
  let tokens := split s '*'
  if tokens.length < 2 ∨ tokens.getD 1 [] = [] then
    false
  else
    let sentence := stripDollar (tokens.getD 0 [])
    let check := sentence.foldl (fun a c => Nat.xor a (byteOf c)) 0
    hex2 check == tokens.getD 1 []

/-- Validity of a sentence exactly as the specification words it: the
split on the asterisk yields at least two parts, the part after the
asterisk is nonempty, and the two-digit uppercase zero-padded rendering
of the XOR (seeded at zero) of every byte of the part before the
asterisk, after dropping a single leading dollar, equals that checksum
part byte for byte. -/
def checksumClaim (s : Str) : Prop :=
  2 ≤ (split s '*').length ∧
  (split s '*').getD 1 [] ≠ [] ∧
  hex2 ((stripDollar ((split s '*').getD 0 [])).foldl
      (fun a c => Nat.xor a (byteOf c)) 0) =
    (split s '*').getD 1 []

instance (s : Str) : Decidable (checksumClaim s) := by
  unfold checksumClaim; infer_instance

/-! ## Numeric token parsing (models of std::stod and std::stoi)

The C++ decoder converts coordinate tokens with std::stod and the GSV
message count with std::stoi, in both cases catching the exception on a
failed conversion.  The models below cover the plain decimal forms
(optional leading spaces, optional sign, digits with an optional
fractional part for stod), which is the entire grammar NMEA fields draw
from; hexadecimal, exponent and infinity forms of strtod are not
modelled.  A none result models the thrown std::invalid_argument. -/

/-- Space characters skipped by the C++ numeric conversions. -/
def isSpaceChar (c : Char) : Bool :=
  c == ' ' || c == '\t' || c == '\n' || c == '\r' || c == '\x0b' || c == '\x0c'

/-- Value of a digit string, most significant first. -/
def natOfDigits (ds : Str) : Nat :=
  ds.foldl (fun a c => 10 * a + (c.toNat - 48)) 0

/-- Unsigned part of the stod model: digits, optionally a point and
more digits; fails when no digit is present. -/
def stodCore (s : Str) : Option ℚ :=
  let ip := s.takeWhile Char.isDigit
  let r1 := s.dropWhile Char.isDigit
  match r1 with
  | '.' :: r2 =>
    let fp := r2.takeWhile Char.isDigit
    if ip = [] ∧ fp = [] then none
    else some ((natOfDigits ip : ℚ) + (natOfDigits fp : ℚ) / (10 : ℚ) ^ fp.length)
  | _ => if ip = [] then none else some (natOfDigits ip : ℚ)

/-- Model of std::stod on the plain decimal forms NMEA uses. -/
def stod (s : Str) : Option ℚ :=
  let s1 := s.dropWhile isSpaceChar
  match s1 with
  | '-' :: r => (stodCore r).map (fun q => -q)
  | '+' :: r => stodCore r
  | _ => stodCore s1

/-- Unsigned part of the stoi model. -/
def stoiCore (s : Str) : Option Nat :=
  let ds := s.takeWhile Char.isDigit
  if ds = [] then none else some (natOfDigits ds)

/-- Model of std::stoi on the decimal forms NMEA uses. -/
def stoi (s : Str) : Option ℤ :=
  let s1 := s.dropWhile isSpaceChar
  match s1 with
  | '-' :: r => (stoiCore r).map (fun n => -(n : ℤ))
  | '+' :: r => (stoiCore r).map (fun n => (n : ℤ))
  | _ => (stoiCore s1).map (fun n => (n : ℤ))

/-! ## Record types (types.h) -/

/-- The seven sentence types the decoder knows. -/
inductive SType
  | GGA | GLL | GSA | GSV | RMC | VTG | ZDA
deriving DecidableEq, Repr

/-- Embedding of the TokensPerSentence enumeration: the minimum token
count the decoder requires for each sentence type. -/
def TokensPerSentence : SType → Nat
  | .GGA => 15
  | .GLL => 7
  | .GSA => 18
  | .GSV => 4
  | .RMC => 12
  | .VTG => 10
  | .ZDA => 7

/-- Latitude record from types.h. -/
structure Latitude where
  value : ℚ
  direction : Char
deriving DecidableEq, Repr

/-- Longitude record from types.h. -/
structure Longitude where
  value : ℚ
  direction : Char
deriving DecidableEq, Repr

/-- GGA record from types.h. -/
structure GGA where
  type : Str
  utc_time : Str
  latitude : Latitude
  longitude : Longitude
  quality : Str
  satellites_used : Str
  hdop : Str
  altitude : Str
  geoidal_separation : Str
  dgps : Str
deriving DecidableEq, Repr

/-- GLL record from types.h. -/
structure GLL where
  type : Str
  latitude : Latitude
  longitude : Longitude
  utc_time : Str
  status : Str
deriving DecidableEq, Repr

/-- GSA record from types.h; the checksum field is never assigned by
parse and keeps its default empty value. -/
structure GSA where
  type : Str
  mode : Str
  fix_type : Str
  satellites : List Str
  pdop : Str
  hdop : Str
  vdop : Str
  checksum : Str
deriving DecidableEq, Repr

/-- Satellite record from types.h. -/
structure Satellite where
  id : Str
  elevation : Str
  azimuth : Str
  snr : Str
deriving DecidableEq, Repr

/-- GSV record from types.h. -/
structure GSV where
  type : Str
  number_of_messages : Str
  sequence_number : Str
  satellites_in_view : Str
  satellites : List Satellite
deriving DecidableEq, Repr

/-- RMC record from types.h. -/
structure RMC where
  type : Str
  utc_time : Str
  status : Str
  latitude : Latitude
  longitude : Longitude
  speed : Str
  course : Str
  utc_date : Str
  mode : Str
deriving DecidableEq, Repr

/-- VTG record from types.h. -/
structure VTG where
  type : Str
  course : Str
  course_magnetic : Str
  speed_kn : Str
  speed_kh : Str
  mode : Str
deriving DecidableEq, Repr

/-- ZDA record from types.h. -/
structure ZDA where
  type : Str
  utc_time : Str
  utc_day : Str
  utc_month : Str
  utc_year : Str
  local_zone_hours : Str
  local_zone_minutes : Str
deriving DecidableEq, Repr

/-- The Sample variant from types.h. -/
inductive Sample
  | gga : GGA → Sample
  | gll : GLL → Sample
  | gsa : GSA → Sample
  | gsv : GSV → Sample
  | rmc : RMC → Sample
  | vtg : VTG → Sample
  | zda : ZDA → Sample
deriving DecidableEq, Repr

/-- The ParseError enumeration from types.h. -/
inductive ParseError
  | InvalidDirection
  | InvalidFormat
  | MissingFields
  | UnknownError
  | UnsupportedType
deriving DecidableEq, Repr

/-- Outcome of a call to parse.  The constructors ok and err model the
two states of the returned std::expected value.  The constructor
outOfRange models an uncaught std::out_of_range thrown by
std::vector::at outside every try block, and oobAccess models an
out-of-bounds use of operator[], which in C++ is undefined behavior. -/
inductive ParseResult
  | ok : Sample → ParseResult
  | err : ParseError → ParseResult
  | outOfRange : ParseResult
  | oobAccess : ParseResult
deriving DecidableEq, Repr

/-! ## Sentence decoder (parse.h) -/

/-- Test of whether the needle starts the haystack, byte for byte. -/
def beginsWith : Str → Str → Bool
  | [], _ => true
  | _ :: _, [] => false
  | c :: ns, d :: hs => c == d && beginsWith ns hs

/-- Embedding of a successful std::string_view::find: true when the
needle occurs contiguously, case sensitively, anywhere in the
haystack. -/
def hasSub (hay needle : Str) : Bool :=
  match hay with
  | [] => beginsWith needle []
  | _ :: rest => beginsWith needle hay || hasSub rest needle

/-- The if-else chain of parse.h applied to token zero: substring
matches against the seven known type names, tried in the fixed order
GGA, GLL, GSA, GSV, RMC, VTG, ZDA. -/
def sentenceType (t0 : Str) : Option SType :=
  if hasSub t0 ('G' :: 'G' :: 'A' :: []) then some .GGA
  else if hasSub t0 ('G' :: 'L' :: 'L' :: []) then some .GLL
  else if hasSub t0 ('G' :: 'S' :: 'A' :: []) then some .GSA
  else if hasSub t0 ('G' :: 'S' :: 'V' :: []) then some .GSV
  else if hasSub t0 ('R' :: 'M' :: 'C' :: []) then some .RMC
  else if hasSub t0 ('V' :: 'T' :: 'G' :: []) then some .VTG
  else if hasSub t0 ('Z' :: 'D' :: 'A' :: []) then some .ZDA
  else none

/-- Access to tokens.at(i) outside any try block: the continuation is
run on the token when the index is in range, and the std::out_of_range
escape is taken otherwise. -/
def withTok (tks : List Str) (i : Nat) (k : Str → ParseResult) : ParseResult :=
  match tks[i]? with
  | some t => k t
  | none => .outOfRange

/-- Conversion of tokens.at(i) with std::stod inside a try block whose
catch returns MissingFields: both an out-of-range index and a failed
conversion land in the catch-all handler, expressed by chaining the
optional access with the optional conversion. -/
def withStod (tks : List Str) (i : Nat) (k : ℚ → ParseResult) : ParseResult :=
  match (tks[i]?).bind stod with
  | some q => k q
  | none => .err .MissingFields

/-- The direction guard of parse.h: the token is nonempty and its
first character is one of the two legal letters for the axis. -/
def dirOk (t : Str) (a b : Char) : Prop :=
  t ≠ [] ∧ (t.headI = a ∨ t.headI = b)

instance (t : Str) (a b : Char) : Decidable (dirOk t a b) := by
  unfold dirOk; infer_instance

/-- GGA branch of parse.h. -/
def parseGGA (tokens : List Str) : ParseResult :=
  if tokens.length < TokensPerSentence .GGA then .err .MissingFields else
  withTok tokens 0 fun t0 =>
  withTok tokens 1 fun t1 =>
  withStod tokens 2 fun latv =>
  withTok tokens 3 fun t3 =>
  if dirOk t3 'N' 'S' then
    withTok tokens 5 fun t5 =>
    if dirOk t5 'E' 'W' then
      withStod tokens 4 fun lonv =>
      withTok tokens 6 fun t6 =>
      withTok tokens 7 fun t7 =>
      withTok tokens 8 fun t8 =>
      withTok tokens 9 fun t9 =>
      withTok tokens 11 fun t11 =>
      withTok tokens 14 fun t14 =>
      .ok (.gga ⟨t0, t1, ⟨latv / 100, t3.headI⟩,
        ⟨lonv / 100 * (if t5.headI = 'W' then -1 else 1), t5.headI⟩,
        t6, t7, t8, t9, t11, t14⟩)
    else .err .InvalidDirection
  else .err .InvalidDirection

/-- GLL branch of parse.h.  The status field is read at index 7 even
though the declared minimum token count is 7. -/
def parseGLL (tokens : List Str) : ParseResult :=
  if tokens.length < TokensPerSentence .GLL then .err .MissingFields else
  withTok tokens 0 fun t0 =>
  withStod tokens 1 fun latv =>
  withTok tokens 2 fun t2 =>
  if dirOk t2 'N' 'S' then
    withTok tokens 4 fun t4 =>
    if dirOk t4 'E' 'W' then
      withStod tokens 3 fun lonv =>
      withTok tokens 6 fun t6 =>
      withTok tokens 7 fun t7 =>
      .ok (.gll ⟨t0, ⟨latv / 100, t2.headI⟩,
        ⟨lonv / 100 * (if t4.headI = 'W' then -1 else 1), t4.headI⟩,
        t6, t7⟩)
    else .err .InvalidDirection
  else .err .InvalidDirection

/-- The GSA satellite loop: for i from zero while i is below twelve
and i plus three is in range, push tokens.at(i + 3).  The upper bound
of twelve is carried as the remaining iteration count. -/
def gsaSatellites (tokens : List Str) : Nat → Nat → List Str
  | _, 0 => []
  | i, r + 1 =>
    if i + 3 < tokens.length then
      tokens.getD (i + 3) [] :: gsaSatellites tokens (i + 1) r
    else []

/-- GSA branch of parse.h. -/
def parseGSA (tokens : List Str) : ParseResult :=
  if tokens.length < TokensPerSentence .GSA then .err .MissingFields else
  withTok tokens 0 fun t0 =>
  withTok tokens 1 fun t1 =>
  withTok tokens 2 fun t2 =>
  withTok tokens 15 fun t15 =>
  withTok tokens 16 fun t16 =>
  withTok tokens 17 fun t17 =>
  .ok (.gsa ⟨t0, t1, t2, gsaSatellites tokens 0 12, t15, t16, t17, []⟩)

/-- The GSV satellite loop: for i from one while i is at most the
parsed message count and i * 4 + 3 is below the token count, read the
four tokens at i * 4 + 4 through i * 4 + 7 with operator[].  The guard
checks index i * 4 + 3 but the reads go up to i * 4 + 7, so a read can
fall outside the sequence; that undefined access is surfaced as none.
The fuel argument only bounds the recursion and is chosen larger than
the loop can iterate, since every iteration requires
i * 4 + 3 < tokens.length. -/
def gsvSatellites (tokens : List Str) (n : ℤ) : Nat → Nat → Option (List Satellite)
  | _, 0 => some []
  | i, fuel + 1 =>
    if (i : ℤ) ≤ n ∧ i * 4 + 3 < tokens.length then
      match tokens[i * 4 + 4]?, tokens[i * 4 + 5]?,
          tokens[i * 4 + 6]?, tokens[i * 4 + 7]? with
      | some a, some e2, some z, some r =>
        match gsvSatellites tokens n (i + 1) fuel with
        | some rest => some (⟨a, e2, z, r⟩ :: rest)
        | none => none
      | _, _, _, _ => none
    else some []

/-- GSV branch of parse.h. -/
def parseGSV (tokens : List Str) : ParseResult :=
  if tokens.length < TokensPerSentence .GSV then .err .MissingFields else
  withTok tokens 0 fun t0 =>
  withTok tokens 1 fun t1 =>
  withTok tokens 2 fun t2 =>
  withTok tokens 3 fun t3 =>
  match stoi t1 with
  | none => .err .MissingFields
  | some n =>
    match gsvSatellites tokens n 1 (tokens.length + 1) with
    | some sats => .ok (.gsv ⟨t0, t1, t2, t3, sats⟩)
    | none => .oobAccess

/-- RMC branch of parse.h. -/
def parseRMC (tokens : List Str) : ParseResult :=
  if tokens.length < TokensPerSentence .RMC then .err .MissingFields else
  withTok tokens 0 fun t0 =>
  withTok tokens 1 fun t1 =>
  withTok tokens 2 fun t2 =>
  withStod tokens 3 fun latv =>
  withTok tokens 4 fun t4 =>
  if dirOk t4 'N' 'S' then
    withTok tokens 6 fun t6 =>
    if dirOk t6 'E' 'W' then
      withStod tokens 5 fun lonv =>
      withTok tokens 7 fun t7 =>
      withTok tokens 8 fun t8 =>
      withTok tokens 9 fun t9 =>
      withTok tokens 11 fun t11 =>
      .ok (.rmc ⟨t0, t1, t2, ⟨latv / 100, t4.headI⟩,
        ⟨lonv / 100 * (if t6.headI = 'W' then -1 else 1), t6.headI⟩,
        t7, t8, t9, t11⟩)
    else .err .InvalidDirection
  else .err .InvalidDirection

/-- VTG branch of parse.h. -/
def parseVTG (tokens : List Str) : ParseResult :=
  if tokens.length < TokensPerSentence .VTG then .err .MissingFields else
  withTok tokens 0 fun t0 =>
  withTok tokens 1 fun t1 =>
  withTok tokens 3 fun t3 =>
  withTok tokens 5 fun t5 =>
  withTok tokens 7 fun t7 =>
  withTok tokens 9 fun t9 =>
  .ok (.vtg ⟨t0, t1, t3, t5, t7, t9⟩)

/-- ZDA branch of parse.h. -/
def parseZDA (tokens : List Str) : ParseResult :=
  if tokens.length < TokensPerSentence .ZDA then .err .MissingFields else
  withTok tokens 0 fun t0 =>
  withTok tokens 1 fun t1 =>
  withTok tokens 2 fun t2 =>
  withTok tokens 3 fun t3 =>
  withTok tokens 4 fun t4 =>
  withTok tokens 5 fun t5 =>
  withTok tokens 6 fun t6 =>
  .ok (.zda ⟨t0, t1, t2, t3, t4, t5, t6⟩)

/-- Dispatch of parse.h on the matched sentence type. -/
def parseBranch : SType → List Str → ParseResult
  | .GGA => parseGGA
  | .GLL => parseGLL
  | .GSA => parseGSA
  | .GSV => parseGSV
  | .RMC => parseRMC
  | .VTG => parseVTG
  | .ZDA => parseZDA

/-- Embedding of gps_lib::parse from parse.h: reject on a failed
checksum, tokenize, guard against an empty token sequence, dispatch on
the substring match of token zero, and run the per-type extraction. -/
def parse (s : Str) : ParseResult :=
  if is_valid_sample s then
    match tokenize s with
    | [] => .err .UnknownError
    | t0 :: rest =>
      match sentenceType t0 with
      | some t => parseBranch t (t0 :: rest)
      | none => .err .UnsupportedType
  else .err .InvalidFormat

/-! ## Concrete sentences used by the claims -/

/-- The RMC sample line hard-coded in main.cpp. -/
def sampleRMC : Str :=
  "$GNRMC,211041.00,A,4024.98796,N,00340.22512,W,0.027,,010218,,,D*7B".toList

/-- The same line with the final field letter changed from D to E and
the checksum left untouched. -/
def sampleRMCBroken : Str :=
  "$GNRMC,211041.00,A,4024.98796,N,00340.22512,W,0.027,,010218,,,E*7B".toList

/-- A valid-checksum GSA line with only 10 comma tokens. -/
def sampleGSA10 : Str :=
  "$GPGSA,A,3,01,02,03,04,05,06,07*1C".toList

/-- A valid-checksum GSA line with the full 18 comma tokens. -/
def sampleGSA18 : Str :=
  "$GPGSA,A,3,01,02,03,04,05,06,07,08,09,10,11,12,1.8,1.0,1.5*3D".toList

/-- A valid-checksum GLL line with exactly 7 comma tokens. -/
def sampleGLL7 : Str :=
  "$GPGLL,4024.98796,N,00340.22512,W,,A*32".toList

/-- A valid-checksum GSV line with exactly 8 comma tokens and a
message count of one. -/
def sampleGSV8 : Str :=
  "$GPGSV,1,1,08,01,40,083,46*4D".toList

/-- A valid-checksum line whose type token contains XXX. -/
def sampleXXX : Str :=
  "$GPXXX,1*52".toList

/-- A valid-checksum 15-token GGA line whose latitude numeric token
and latitude direction token are both the letter X. -/
def sampleGGABadLat : Str :=
  "$GPGGA,211041.00,X,X,00340.22512,E,1,08,1.0,100.0,M,46.9,M,,*39".toList

/-- A valid-checksum 15-token GGA line with a well-formed latitude
numeric token and the letter X as latitude direction. -/
def sampleGGABadDir : Str :=
  "$GPGGA,211041.00,4024.98796,X,00340.22512,E,1,08,1.0,100.0,M,46.9,M,,*74".toList

/-- A valid-checksum 15-token GGA line with a well-formed latitude
numeric token, the letter X as latitude direction, the letter X as the
longitude numeric token and a legal longitude direction. -/
def sampleGGALonX : Str :=
  "$GPGGA,211041.00,4024.98796,X,X,E,1,08,1.0,100.0,M,46.9,M,,*03".toList

/-- A valid-checksum 15-token GGA line whose latitude numeric token is
the letter X, with a legal latitude direction and the letter X as
longitude direction. -/
def sampleGGAMaskedLon : Str :=
  "$GPGGA,211041.00,X,N,00340.22512,X,1,08,1.0,100.0,M,46.9,M,,*32".toList

/-- The record parse produces for the RMC sample line.  The rational
values are written in the shape the decoder computes them; the theorems
on claim C6 identify them with their decimal values. -/
def rmcExpected : RMC :=
  ⟨"$GNRMC".toList, "211041.00".toList, "A".toList,
    ⟨((4024 : ℚ) + 98796 / 10 ^ 5) / 100, 'N'⟩,
    ⟨((340 : ℚ) + 22512 / 10 ^ 5) / 100 * (-1), 'W'⟩,
    "0.027".toList, [], "010218".toList, []⟩

/-! ## Lemmas on the tokenizer -/

theorem split_ne_nil (s : Str) (sep : Char) : split s sep ≠ [] := by
  induction s with
  | nil => simp [split]
  | cons c rest ih =>
    unfold split
    by_cases h : c = sep
    · simp [h]
    · rw [if_neg h]
      rcases h2 : split rest sep with _ | ⟨t, ts⟩
      · exact absurd h2 ih
      · simp

theorem split_length (s : Str) (sep : Char) :
    (split s sep).length = s.count sep + 1 := by
  induction s with
  | nil => simp [split]
  | cons c rest ih =>
    unfold split
    by_cases h : c = sep
    · subst h
      simp [List.count_cons, ih]
    · rw [if_neg h]
      rcases h2 : split rest sep with _ | ⟨t, ts⟩
      · exact absurd h2 (split_ne_nil rest sep)
      · have := ih
        rw [h2] at this
        simp only [List.length_cons] at this ⊢
        simp [List.count_cons, h, Ne.symm h, this]

theorem split_of_count_zero (s : Str) (sep : Char) (h : s.count sep = 0) :
    split s sep = [s] := by
  induction s with
  | nil => simp [split]
  | cons c rest ih =>
    have hc : ¬(c = sep) := by
      intro hc
      subst hc
      simp [List.count_cons] at h
    have hrest : rest.count sep = 0 := by
      simp [List.count_cons, hc, Ne.symm hc] at h
      omega
    unfold split
    rw [if_neg hc, ih hrest]

theorem joinWith_split (s : Str) (sep : Char) :
    joinWith sep (split s sep) = s := by
  induction s with
  | nil => simp [split, joinWith]
  | cons c rest ih =>
    unfold split
    by_cases h : c = sep
    · rw [if_pos h]
      rcases h2 : split rest sep with _ | ⟨t, ts⟩
      · exact absurd h2 (split_ne_nil rest sep)
      · rw [h2] at ih
        simp [joinWith, ih, h]
    · rw [if_neg h]
      rcases h2 : split rest sep with _ | ⟨t, ts⟩
      · exact absurd h2 (split_ne_nil rest sep)
      · rw [h2] at ih
        rcases ts with _ | ⟨u, ts2⟩
        · simp [joinWith] at ih ⊢
          exact ih
        · simp [joinWith] at ih ⊢
          exact ih

theorem tokenize_ne_nil (s : Str) : tokenize s ≠ [] := by
  unfold tokenize
  exact split_ne_nil _ _

/-! ## Lemmas on token access -/

theorem getD_of_lt {l : List Str} {i : Nat} (h : i < l.length) :
    l[i]? = some (l.getD i []) := by
  rw [List.getElem?_eq_getElem h, List.getD_eq_getElem l [] h]

theorem withTok_eq_some {tks : List Str} {i : Nat} {t : Str}
    (h : tks[i]? = some t) (k : Str → ParseResult) :
    withTok tks i k = k t := by
  unfold withTok
  rw [h]

theorem withTok_eq_none {tks : List Str} {i : Nat}
    (h : tks[i]? = none) (k : Str → ParseResult) :
    withTok tks i k = .outOfRange := by
  unfold withTok
  rw [h]

theorem withStod_eq_some {tks : List Str} {i : Nat} {t : Str} {q : ℚ}
    (h : tks[i]? = some t) (hq : stod t = some q) (k : ℚ → ParseResult) :
    withStod tks i k = k q := by
  unfold withStod
  rw [show (tks[i]?).bind stod = some q by rw [h]; exact hq]

theorem withStod_eq_fail {tks : List Str} {i : Nat} {t : Str}
    (h : tks[i]? = some t) (hq : stod t = none) (k : ℚ → ParseResult) :
    withStod tks i k = .err .MissingFields := by
  unfold withStod
  rw [show (tks[i]?).bind stod = none by rw [h]; exact hq]

theorem withTok_ok_inv {tks : List Str} {i : Nat} {k : Str → ParseResult}
    {x : Sample} (h : withTok tks i k = .ok x) :
    ∃ t, tks[i]? = some t ∧ k t = .ok x := by
  unfold withTok at h
  rcases h2 : tks[i]? with _ | t
  · rw [h2] at h
    cases h
  · rw [h2] at h
    exact ⟨t, rfl, h⟩

theorem withStod_ok_inv {tks : List Str} {i : Nat} {k : ℚ → ParseResult}
    {x : Sample} (h : withStod tks i k = .ok x) :
    ∃ t q, tks[i]? = some t ∧ stod t = some q ∧ k q = .ok x := by
  unfold withStod at h
  rcases hb : (tks[i]?).bind stod with _ | q
  · rw [hb] at h
    cases h
  · rw [hb] at h
    obtain ⟨t, ht, hq⟩ := Option.bind_eq_some.mp hb
    exact ⟨t, q, ht, hq, h⟩

/-- The only error values a per-type extraction can produce are
MissingFields and InvalidDirection. -/
def ErrsNarrow (o : ParseResult) : Prop :=
  ∀ e, o = .err e → e = .MissingFields ∨ e = .InvalidDirection

theorem errsNarrow_ok (x : Sample) : ErrsNarrow (.ok x) := by
  intro e h
  cases h

theorem errsNarrow_mf : ErrsNarrow (.err .MissingFields) := by
  intro e h
  cases h
  exact Or.inl rfl

theorem errsNarrow_id : ErrsNarrow (.err .InvalidDirection) := by
  intro e h
  cases h
  exact Or.inr rfl

theorem errsNarrow_oor : ErrsNarrow .outOfRange := by
  intro e h
  cases h

theorem errsNarrow_oobAccess : ErrsNarrow .oobAccess := by
  intro e h
  cases h

theorem withTok_errsNarrow {tks : List Str} {i : Nat} {k : Str → ParseResult}
    (hk : ∀ t, ErrsNarrow (k t)) : ErrsNarrow (withTok tks i k) := by
  unfold withTok
  rcases tks[i]? with _ | t
  · exact errsNarrow_oor
  · exact hk t

theorem withStod_errsNarrow {tks : List Str} {i : Nat} {k : ℚ → ParseResult}
    (hk : ∀ q, ErrsNarrow (k q)) : ErrsNarrow (withStod tks i k) := by
  unfold withStod
  rcases (tks[i]?).bind stod with _ | q
  · exact errsNarrow_mf
  · exact hk q

theorem ite_errsNarrow {c : Prop} [Decidable c] {a b : ParseResult}
    (ha : ErrsNarrow a) (hb : ErrsNarrow b) : ErrsNarrow (if c then a else b) := by
  by_cases h : c
  · rwa [if_pos h]
  · rwa [if_neg h]

/-! ## Lemmas on the extraction branches -/

theorem parseGGA_errsNarrow (tokens : List Str) : ErrsNarrow (parseGGA tokens) := by
  unfold parseGGA
  refine ite_errsNarrow errsNarrow_mf ?_
  refine withTok_errsNarrow fun t0 => ?_
  refine withTok_errsNarrow fun t1 => ?_
  refine withStod_errsNarrow fun latv => ?_
  refine withTok_errsNarrow fun t3 => ?_
  refine ite_errsNarrow ?_ errsNarrow_id
  refine withTok_errsNarrow fun t5 => ?_
  refine ite_errsNarrow ?_ errsNarrow_id
  refine withStod_errsNarrow fun lonv => ?_
  refine withTok_errsNarrow fun t6 => ?_
  refine withTok_errsNarrow fun t7 => ?_
  refine withTok_errsNarrow fun t8 => ?_
  refine withTok_errsNarrow fun t9 => ?_
  refine withTok_errsNarrow fun t11 => ?_
  refine withTok_errsNarrow fun t14 => ?_
  exact errsNarrow_ok _

theorem parseGLL_errsNarrow (tokens : List Str) : ErrsNarrow (parseGLL tokens) := by
  unfold parseGLL
  refine ite_errsNarrow errsNarrow_mf ?_
  refine withTok_errsNarrow fun t0 => ?_
  refine withStod_errsNarrow fun latv => ?_
  refine withTok_errsNarrow fun t2 => ?_
  refine ite_errsNarrow ?_ errsNarrow_id
  refine withTok_errsNarrow fun t4 => ?_
  refine ite_errsNarrow ?_ errsNarrow_id
  refine withStod_errsNarrow fun lonv => ?_
  refine withTok_errsNarrow fun t6 => ?_
  refine withTok_errsNarrow fun t7 => ?_
  exact errsNarrow_ok _

theorem parseGSA_errsNarrow (tokens : List Str) : ErrsNarrow (parseGSA tokens) := by
  unfold parseGSA
  refine ite_errsNarrow errsNarrow_mf ?_
  refine withTok_errsNarrow fun t0 => ?_
  refine withTok_errsNarrow fun t1 => ?_
  refine withTok_errsNarrow fun t2 => ?_
  refine withTok_errsNarrow fun t15 => ?_
  refine withTok_errsNarrow fun t16 => ?_
  refine withTok_errsNarrow fun t17 => ?_
  exact errsNarrow_ok _

theorem parseGSV_errsNarrow (tokens : List Str) : ErrsNarrow (parseGSV tokens) := by
  unfold parseGSV
  refine ite_errsNarrow errsNarrow_mf ?_
  refine withTok_errsNarrow fun t0 => ?_
  refine withTok_errsNarrow fun t1 => ?_
  refine withTok_errsNarrow fun t2 => ?_
  refine withTok_errsNarrow fun t3 => ?_
  rcases stoi t1 with _ | n
  · exact errsNarrow_mf
  · show ErrsNarrow
      (match gsvSatellites tokens n 1 (tokens.length + 1) with
        | some sats => .ok (.gsv ⟨t0, t1, t2, t3, sats⟩)
        | none => .oobAccess)
    rcases gsvSatellites tokens n 1 (tokens.length + 1) with _ | sats
    · exact errsNarrow_oobAccess
    · exact errsNarrow_ok _

theorem parseRMC_errsNarrow (tokens : List Str) : ErrsNarrow (parseRMC tokens) := by
  unfold parseRMC
  refine ite_errsNarrow errsNarrow_mf ?_
  refine withTok_errsNarrow fun t0 => ?_
  refine withTok_errsNarrow fun t1 => ?_
  refine withTok_errsNarrow fun t2 => ?_
  refine withStod_errsNarrow fun latv => ?_
  refine withTok_errsNarrow fun t4 => ?_
  refine ite_errsNarrow ?_ errsNarrow_id
  refine withTok_errsNarrow fun t6 => ?_
  refine ite_errsNarrow ?_ errsNarrow_id
  refine withStod_errsNarrow fun lonv => ?_
  refine withTok_errsNarrow fun t7 => ?_
  refine withTok_errsNarrow fun t8 => ?_
  refine withTok_errsNarrow fun t9 => ?_
  refine withTok_errsNarrow fun t11 => ?_
  exact errsNarrow_ok _

theorem parseVTG_errsNarrow (tokens : List Str) : ErrsNarrow (parseVTG tokens) := by
  unfold parseVTG
  refine ite_errsNarrow errsNarrow_mf ?_
  refine withTok_errsNarrow fun t0 => ?_
  refine withTok_errsNarrow fun t1 => ?_
  refine withTok_errsNarrow fun t3 => ?_
  refine withTok_errsNarrow fun t5 => ?_
  refine withTok_errsNarrow fun t7 => ?_
  refine withTok_errsNarrow fun t9 => ?_
  exact errsNarrow_ok _

theorem parseZDA_errsNarrow (tokens : List Str) : ErrsNarrow (parseZDA tokens) := by
  unfold parseZDA
  refine ite_errsNarrow errsNarrow_mf ?_
  refine withTok_errsNarrow fun t0 => ?_
  refine withTok_errsNarrow fun t1 => ?_
  refine withTok_errsNarrow fun t2 => ?_
  refine withTok_errsNarrow fun t3 => ?_
  refine withTok_errsNarrow fun t4 => ?_
  refine withTok_errsNarrow fun t5 => ?_
  refine withTok_errsNarrow fun t6 => ?_
  exact errsNarrow_ok _

theorem parseBranch_errsNarrow (t : SType) (tokens : List Str) :
    ErrsNarrow (parseBranch t tokens) := by
  cases t
  · exact parseGGA_errsNarrow tokens
  · exact parseGLL_errsNarrow tokens
  · exact parseGSA_errsNarrow tokens
  · exact parseGSV_errsNarrow tokens
  · exact parseRMC_errsNarrow tokens
  · exact parseVTG_errsNarrow tokens
  · exact parseZDA_errsNarrow tokens

/-- A branch rejects with MissingFields whenever the token count is
below the minimum of its type. -/
theorem parseBranch_short {t : SType} {tokens : List Str}
    (h : tokens.length < TokensPerSentence t) :
    parseBranch t tokens = .err .MissingFields := by
  cases t <;>
    simp only [parseBranch, parseGGA, parseGLL, parseGSA, parseGSV,
      parseRMC, parseVTG, parseZDA] <;>
    rw [if_pos h]

theorem parseGGA_ok_inv {tokens : List Str} {x : Sample}
    (h : parseGGA tokens = .ok x) :
    ∃ g, x = .gga g ∧
      (∃ t q, tokens[2]? = some t ∧ stod t = some q ∧
        g.latitude.value = q / 100) ∧
      (∃ t q, tokens[4]? = some t ∧ stod t = some q ∧
        g.longitude.value =
          q / 100 * (if g.longitude.direction = 'W' then -1 else 1)) := by
  unfold parseGGA at h
  split at h
  · cases h
  · obtain ⟨t0, h0, h⟩ := withTok_ok_inv h
    obtain ⟨t1, h1, h⟩ := withTok_ok_inv h
    obtain ⟨t2, q2, h2, hq2, h⟩ := withStod_ok_inv h
    obtain ⟨t3, h3, h⟩ := withTok_ok_inv h
    split at h
    · obtain ⟨t5, h5, h⟩ := withTok_ok_inv h
      split at h
      · obtain ⟨t4, q4, h4, hq4, h⟩ := withStod_ok_inv h
        obtain ⟨t6, h6, h⟩ := withTok_ok_inv h
        obtain ⟨t7, h7, h⟩ := withTok_ok_inv h
        obtain ⟨t8, h8, h⟩ := withTok_ok_inv h
        obtain ⟨t9, h9, h⟩ := withTok_ok_inv h
        obtain ⟨t11, h11, h⟩ := withTok_ok_inv h
        obtain ⟨t14, h14, h⟩ := withTok_ok_inv h
        cases h
        exact ⟨_, rfl, ⟨t2, q2, h2, hq2, rfl⟩, ⟨t4, q4, h4, hq4, rfl⟩⟩
      · cases h
    · cases h

theorem parseGLL_ok_inv {tokens : List Str} {x : Sample}
    (h : parseGLL tokens = .ok x) :
    ∃ g, x = .gll g ∧
      (∃ t q, tokens[1]? = some t ∧ stod t = some q ∧
        g.latitude.value = q / 100) ∧
      (∃ t q, tokens[3]? = some t ∧ stod t = some q ∧
        g.longitude.value =
          q / 100 * (if g.longitude.direction = 'W' then -1 else 1)) := by
  unfold parseGLL at h
  split at h
  · cases h
  · obtain ⟨t0, h0, h⟩ := withTok_ok_inv h
    obtain ⟨t1, q1, h1, hq1, h⟩ := withStod_ok_inv h
    obtain ⟨t2, h2, h⟩ := withTok_ok_inv h
    split at h
    · obtain ⟨t4, h4, h⟩ := withTok_ok_inv h
      split at h
      · obtain ⟨t3, q3, h3, hq3, h⟩ := withStod_ok_inv h
        obtain ⟨t6, h6, h⟩ := withTok_ok_inv h
        obtain ⟨t7, h7, h⟩ := withTok_ok_inv h
        cases h
        exact ⟨_, rfl, ⟨t1, q1, h1, hq1, rfl⟩, ⟨t3, q3, h3, hq3, rfl⟩⟩
      · cases h
    · cases h

theorem parseGSA_ok_inv {tokens : List Str} {x : Sample}
    (h : parseGSA tokens = .ok x) :
    ∃ d, x = .gsa d ∧ TokensPerSentence .GSA ≤ tokens.length ∧
      d.satellites = gsaSatellites tokens 0 12 := by
  unfold parseGSA at h
  split at h
  · cases h
  · obtain ⟨t0, h0, h⟩ := withTok_ok_inv h
    obtain ⟨t1, h1, h⟩ := withTok_ok_inv h
    obtain ⟨t2, h2, h⟩ := withTok_ok_inv h
    obtain ⟨t15, h15, h⟩ := withTok_ok_inv h
    obtain ⟨t16, h16, h⟩ := withTok_ok_inv h
    obtain ⟨t17, h17, h⟩ := withTok_ok_inv h
    cases h
    exact ⟨_, rfl, by omega, rfl⟩

theorem parseGSV_ok_inv {tokens : List Str} {x : Sample}
    (h : parseGSV tokens = .ok x) : ∃ d, x = .gsv d := by
  unfold parseGSV at h
  split at h
  · cases h
  · obtain ⟨t0, h0, h⟩ := withTok_ok_inv h
    obtain ⟨t1, h1, h⟩ := withTok_ok_inv h
    obtain ⟨t2, h2, h⟩ := withTok_ok_inv h
    obtain ⟨t3, h3, h⟩ := withTok_ok_inv h
    rcases hn : stoi t1 with _ | n
    · rw [hn] at h
      cases h
    · rw [hn] at h
      revert h
      show (match gsvSatellites tokens n 1 (tokens.length + 1) with
        | some sats => ParseResult.ok (.gsv ⟨t0, t1, t2, t3, sats⟩)
        | none => ParseResult.oobAccess) = .ok x → ∃ d, x = .gsv d
      rcases gsvSatellites tokens n 1 (tokens.length + 1) with _ | sats
      · intro h
        cases h
      · intro h
        cases h
        exact ⟨_, rfl⟩

theorem parseRMC_ok_inv {tokens : List Str} {x : Sample}
    (h : parseRMC tokens = .ok x) :
    ∃ g, x = .rmc g ∧
      (∃ t q, tokens[3]? = some t ∧ stod t = some q ∧
        g.latitude.value = q / 100) ∧
      (∃ t q, tokens[5]? = some t ∧ stod t = some q ∧
        g.longitude.value =
          q / 100 * (if g.longitude.direction = 'W' then -1 else 1)) := by
  unfold parseRMC at h
  split at h
  · cases h
  · obtain ⟨t0, h0, h⟩ := withTok_ok_inv h
    obtain ⟨t1, h1, h⟩ := withTok_ok_inv h
    obtain ⟨t2, h2, h⟩ := withTok_ok_inv h
    obtain ⟨t3, q3, h3, hq3, h⟩ := withStod_ok_inv h
    obtain ⟨t4, h4, h⟩ := withTok_ok_inv h
    split at h
    · obtain ⟨t6, h6, h⟩ := withTok_ok_inv h
      split at h
      · obtain ⟨t5, q5, h5, hq5, h⟩ := withStod_ok_inv h
        obtain ⟨t7, h7, h⟩ := withTok_ok_inv h
        obtain ⟨t8, h8, h⟩ := withTok_ok_inv h
        obtain ⟨t9, h9, h⟩ := withTok_ok_inv h
        obtain ⟨t11, h11, h⟩ := withTok_ok_inv h
        cases h
        exact ⟨_, rfl, ⟨t3, q3, h3, hq3, rfl⟩, ⟨t5, q5, h5, hq5, rfl⟩⟩
      · cases h
    · cases h

theorem parseVTG_ok_inv {tokens : List Str} {x : Sample}
    (h : parseVTG tokens = .ok x) : ∃ d, x = .vtg d := by
  unfold parseVTG at h
  split at h
  · cases h
  · obtain ⟨t0, h0, h⟩ := withTok_ok_inv h
    obtain ⟨t1, h1, h⟩ := withTok_ok_inv h
    obtain ⟨t3, h3, h⟩ := withTok_ok_inv h
    obtain ⟨t5, h5, h⟩ := withTok_ok_inv h
    obtain ⟨t7, h7, h⟩ := withTok_ok_inv h
    obtain ⟨t9, h9, h⟩ := withTok_ok_inv h
    cases h
    exact ⟨_, rfl⟩

theorem parseZDA_ok_inv {tokens : List Str} {x : Sample}
    (h : parseZDA tokens = .ok x) : ∃ d, x = .zda d := by
  unfold parseZDA at h
  split at h
  · cases h
  · obtain ⟨t0, h0, h⟩ := withTok_ok_inv h
    obtain ⟨t1, h1, h⟩ := withTok_ok_inv h
    obtain ⟨t2, h2, h⟩ := withTok_ok_inv h
    obtain ⟨t3, h3, h⟩ := withTok_ok_inv h
    obtain ⟨t4, h4, h⟩ := withTok_ok_inv h
    obtain ⟨t5, h5, h⟩ := withTok_ok_inv h
    obtain ⟨t6, h6, h⟩ := withTok_ok_inv h
    cases h
    exact ⟨_, rfl⟩

/-! ## Lemmas on the top-level dispatch -/

theorem parse_ok_inv {s : Str} {x : Sample} (h : parse s = .ok x) :
    is_valid_sample s = true ∧
      ∃ t, sentenceType ((tokenize s).headI) = some t ∧
        parseBranch t (tokenize s) = .ok x := by
  unfold parse at h
  split at h
  case isTrue hv =>
    rcases htk : tokenize s with _ | ⟨t0, rest⟩
    · rw [htk] at h
      cases h
    · rw [htk] at h
      replace h : (match sentenceType t0 with
        | some t => parseBranch t (t0 :: rest)
        | none => ParseResult.err .UnsupportedType) = .ok x := h
      rcases hst : sentenceType t0 with _ | t
      · rw [hst] at h
        cases h
      · rw [hst] at h
        refine ⟨hv, t, ?_, ?_⟩
        · simpa using hst
        · exact h
  case isFalse => cases h

/-- On a valid sentence whose type token matches, parse runs the
matched extraction branch. -/
theorem parse_eq_branch {s : Str} {t : SType}
    (hv : is_valid_sample s = true)
    (ht : sentenceType ((tokenize s).headI) = some t) :
    parse s = parseBranch t (tokenize s) := by
  unfold parse
  rw [if_pos hv]
  rcases htk : tokenize s with _ | ⟨t0, rest⟩
  · exact absurd htk (tokenize_ne_nil s)
  · rw [htk] at ht
    simp only [List.headI] at ht
    show (match sentenceType t0 with
      | some u => parseBranch u (t0 :: rest)
      | none => ParseResult.err .UnsupportedType) = parseBranch t (t0 :: rest)
    rw [ht]

/-! ## The GSA satellite loop on long-enough inputs -/

theorem gsaSatellites_eq (tokens : List Str) :
    ∀ r i, i + r ≤ 12 → 15 ≤ tokens.length →
      gsaSatellites tokens i r = (tokens.drop (i + 3)).take r := by
  intro r
  induction r with
  | zero =>
    intro i _ _
    simp [gsaSatellites]
  | succ r ih =>
    intro i hir hlen
    unfold gsaSatellites
    have hlt : i + 3 < tokens.length := by omega
    rw [if_pos hlt, ih (i + 1) (by omega) hlen]
    rw [List.drop_eq_getElem_cons hlt, List.take_succ_cons]
    have e : i + 1 + 3 = i + 3 + 1 := by omega
    rw [e, List.getD_eq_getElem tokens [] hlt]

/-! ## Claim theorems -/

/-- Claim C1: for every input string, is_valid_sample returns true if
and only if splitting on the asterisk yields at least two parts with a
nonempty part after the asterisk, and the two-digit uppercase
zero-padded hexadecimal rendering of the XOR (seeded at zero) of every
byte of the part before the asterisk, after dropping a single leading
dollar, equals the checksum part byte for byte. -/
theorem claim_C1_checksum (s : Str) :
    is_valid_sample s = true ↔ checksumClaim s := by
  simp only [is_valid_sample, checksumClaim]
  by_cases h : (split s '*').length < 2 ∨ (split s '*').getD 1 [] = []
  · rw [if_pos h]
    constructor
    · intro hfalse
      cases hfalse
    · rintro ⟨ha, hb, _⟩
      rcases h with h | h
      · omega
      · exact absurd h hb
  · rw [if_neg h]
    push_neg at h
    rw [beq_iff_eq]
    constructor
    · intro he
      exact ⟨by omega, h.2, he⟩
    · rintro ⟨_, _, he⟩
      exact he

/-- Claim C9: split is total and deterministic; it returns the
separator count plus one tokens, returns a single empty token on the
empty input, returns the whole input as the only token when the
separator does not occur, and joining the tokens with the separator
restores the input, so the tokens appear in order with empty tokens
preserved. -/
theorem claim_C9_split :
    (∀ (s : Str) (sep : Char), (split s sep).length = s.count sep + 1) ∧
    (∀ sep : Char, split ([] : Str) sep = [[]]) ∧
    (∀ (s : Str) (sep : Char), s.count sep = 0 → split s sep = [s]) ∧
    (∀ (s : Str) (sep : Char), joinWith sep (split s sep) = s) :=
  ⟨split_length, fun _ => rfl, split_of_count_zero, joinWith_split⟩

/-- Witness for claim C9 at a concrete separator-free input. -/
theorem claim_C9_split_witness :
    split ("GPGGA".toList) ',' = [("GPGGA".toList)] :=
  claim_C9_split.2.2.1 ("GPGGA".toList) ',' (by decide)

/-- Claim C2 (code bug): on the valid GLL sentence with exactly the
declared minimum of 7 comma tokens, parse reads tokens.at(7), which is
out of range, so the call throws std::out_of_range instead of
returning a record or a ParseError. -/
theorem claim_C2_gll_out_of_range : parse sampleGLL7 = .outOfRange := by
  decide

/-- Claim C3 (code bug): on a valid GSV sentence with 8 comma tokens
and a message count of one, the loop guard i * 4 + 3 below the token
count holds at i equal one, but the group is read at indices i * 4 + 4
through i * 4 + 7, so operator[] is applied outside the sequence,
which is undefined behavior. -/
theorem claim_C3_gsv_out_of_bounds : parse sampleGSV8 = .oobAccess := by
  decide

/-- Claim C4: parse returns InvalidFormat exactly when is_valid_sample
rejects the input; no input passing the checksum ever yields
InvalidFormat. -/
theorem claim_C4_invalid_format (s : Str) :
    parse s = .err .InvalidFormat ↔ is_valid_sample s = false := by
  constructor
  · intro h
    by_contra hv
    rw [Bool.not_eq_false] at hv
    unfold parse at h
    rw [if_pos hv] at h
    rcases htk : tokenize s with _ | ⟨t0, rest⟩
    · rw [htk] at h
      simp at h
    · rw [htk] at h
      replace h : (match sentenceType t0 with
        | some t => parseBranch t (t0 :: rest)
        | none => ParseResult.err .UnsupportedType) =
          .err .InvalidFormat := h
      rcases hst : sentenceType t0 with _ | t
      · rw [hst] at h
        simp at h
      · rw [hst] at h
        rcases parseBranch_errsNarrow t (t0 :: rest) _ h with h1 | h1 <;>
          cases h1
  · intro h
    unfold parse
    rw [if_neg (by simp [h])]

/-- Witness for claim C4: the RMC sample line with the final field
letter changed from D to E and the checksum left alone is rejected
with InvalidFormat. -/
theorem claim_C4_invalid_format_witness :
    parse sampleRMCBroken = .err .InvalidFormat :=
  (claim_C4_invalid_format sampleRMCBroken).mpr (by decide)

/-- Claim C8: on a valid sentence, parse returns UnsupportedType
exactly when token zero contains none of the seven type names under
the ordered case-sensitive substring match, and when a type matches
the result is produced by that type's extraction branch, so a talker
prefix before the type name is irrelevant. -/
theorem claim_C8_unsupported_type :
    (∀ s : Str, is_valid_sample s = true →
      (parse s = .err .UnsupportedType ↔
        sentenceType ((tokenize s).headI) = none)) ∧
    (∀ (s : Str) (t : SType), is_valid_sample s = true →
      sentenceType ((tokenize s).headI) = some t →
      parse s = parseBranch t (tokenize s)) := by
  constructor
  · intro s hv
    constructor
    · intro h
      rcases hst : sentenceType ((tokenize s).headI) with _ | t
      · rfl
      · rw [parse_eq_branch hv hst] at h
        rcases parseBranch_errsNarrow t (tokenize s) _ h with h1 | h1 <;>
          cases h1
    · intro hnone
      unfold parse
      rw [if_pos hv]
      rcases htk : tokenize s with _ | ⟨t0, rest⟩
      · exact absurd htk (tokenize_ne_nil s)
      · rw [htk] at hnone
        simp only [List.headI] at hnone
        show (match sentenceType t0 with
          | some u => parseBranch u (t0 :: rest)
          | none => ParseResult.err .UnsupportedType) =
            .err .UnsupportedType
        rw [hnone]
  · intro s t hv hst
    exact parse_eq_branch hv hst

/-- Witness for claim C8: a valid line whose type token contains XXX
is rejected with UnsupportedType. -/
theorem claim_C8_unsupported_type_witness :
    parse sampleXXX = .err .UnsupportedType :=
  (claim_C8_unsupported_type.1 sampleXXX (by decide)).mpr (by decide)

/-- Claim C5 counterexample: the claim promises MissingFields for
every required numeric token that fails to parse, but on a valid
15-token GGA line whose longitude numeric token is the letter X and
whose latitude direction token is also the letter X, parse returns
InvalidDirection: the latitude direction is checked before the
longitude numeric token is ever converted. -/
theorem claim_C5_missing_fields_counterexample :
    stod ((tokenize sampleGGALonX).getD 4 []) = none ∧
    parse sampleGGALonX = .err .InvalidDirection ∧
    parse sampleGGALonX ≠ .err .MissingFields :=
  ⟨by decide, by decide, by decide⟩

/-- Claim C5 (amended): on a valid sentence whose type token matches,
a token count below the type's minimum is rejected with MissingFields,
and so is a required numeric token that fails to convert: the GSV
message count under stoi and the latitude value of GGA, GLL and RMC
under stod, unconditionally; the longitude value of GGA, GLL and RMC
under stod whenever both paired direction letters are legal, since the
longitude numeric is converted only after both direction checks and a
bad direction letter preempts with InvalidDirection. -/
theorem claim_C5_missing_fields (s : Str) (t : SType)
    (hv : is_valid_sample s = true)
    (ht : sentenceType ((tokenize s).headI) = some t)
    (hcase :
      (tokenize s).length < TokensPerSentence t ∨
      (t = .GSV ∧ TokensPerSentence .GSV ≤ (tokenize s).length ∧
        stoi ((tokenize s).getD 1 []) = none) ∨
      (t = .GGA ∧ TokensPerSentence .GGA ≤ (tokenize s).length ∧
        stod ((tokenize s).getD 2 []) = none) ∨
      (t = .GLL ∧ TokensPerSentence .GLL ≤ (tokenize s).length ∧
        stod ((tokenize s).getD 1 []) = none) ∨
      (t = .RMC ∧ TokensPerSentence .RMC ≤ (tokenize s).length ∧
        stod ((tokenize s).getD 3 []) = none) ∨
      (t = .GGA ∧ TokensPerSentence .GGA ≤ (tokenize s).length ∧
        dirOk ((tokenize s).getD 3 []) 'N' 'S' ∧
        dirOk ((tokenize s).getD 5 []) 'E' 'W' ∧
        stod ((tokenize s).getD 4 []) = none) ∨
      (t = .GLL ∧ TokensPerSentence .GLL ≤ (tokenize s).length ∧
        dirOk ((tokenize s).getD 2 []) 'N' 'S' ∧
        dirOk ((tokenize s).getD 4 []) 'E' 'W' ∧
        stod ((tokenize s).getD 3 []) = none) ∨
      (t = .RMC ∧ TokensPerSentence .RMC ≤ (tokenize s).length ∧
        dirOk ((tokenize s).getD 4 []) 'N' 'S' ∧
        dirOk ((tokenize s).getD 6 []) 'E' 'W' ∧
        stod ((tokenize s).getD 5 []) = none)) :
    parse s = .err .MissingFields := by
  rw [parse_eq_branch hv ht]
  rcases hcase with h | ⟨rfl, hlen, hn⟩ | ⟨rfl, hlen, hn⟩ |
    ⟨rfl, hlen, hn⟩ | ⟨rfl, hlen, hn⟩ | ⟨rfl, hlen, hg1, hg2, hn⟩ |
    ⟨rfl, hlen, hg1, hg2, hn⟩ | ⟨rfl, hlen, hg1, hg2, hn⟩
  · exact parseBranch_short h
  · simp only [TokensPerSentence] at hlen
    have h0 : (tokenize s)[0]? = some ((tokenize s).getD 0 []) :=
      getD_of_lt (by omega)
    have h1 : (tokenize s)[1]? = some ((tokenize s).getD 1 []) :=
      getD_of_lt (by omega)
    have h2 : (tokenize s)[2]? = some ((tokenize s).getD 2 []) :=
      getD_of_lt (by omega)
    have h3 : (tokenize s)[3]? = some ((tokenize s).getD 3 []) :=
      getD_of_lt (by omega)
    have hnl : ¬ (tokenize s).length < TokensPerSentence .GSV := by
      simp only [TokensPerSentence]
      omega
    simp only [parseBranch, parseGSV, if_neg hnl, withTok, h0, h1, h2, h3, hn]
  · simp only [TokensPerSentence] at hlen
    have h0 : (tokenize s)[0]? = some ((tokenize s).getD 0 []) :=
      getD_of_lt (by omega)
    have h1 : (tokenize s)[1]? = some ((tokenize s).getD 1 []) :=
      getD_of_lt (by omega)
    have h2 : (tokenize s)[2]? = some ((tokenize s).getD 2 []) :=
      getD_of_lt (by omega)
    have hnl : ¬ (tokenize s).length < TokensPerSentence .GGA := by
      simp only [TokensPerSentence]
      omega
    simp only [parseBranch, parseGGA, if_neg hnl, withTok, withStod, h0, h1, h2,
      Option.bind, hn]
  · simp only [TokensPerSentence] at hlen
    have h0 : (tokenize s)[0]? = some ((tokenize s).getD 0 []) :=
      getD_of_lt (by omega)
    have h1 : (tokenize s)[1]? = some ((tokenize s).getD 1 []) :=
      getD_of_lt (by omega)
    have hnl : ¬ (tokenize s).length < TokensPerSentence .GLL := by
      simp only [TokensPerSentence]
      omega
    simp only [parseBranch, parseGLL, if_neg hnl, withTok, withStod, h0, h1,
      Option.bind, hn]
  · simp only [TokensPerSentence] at hlen
    have h0 : (tokenize s)[0]? = some ((tokenize s).getD 0 []) :=
      getD_of_lt (by omega)
    have h1 : (tokenize s)[1]? = some ((tokenize s).getD 1 []) :=
      getD_of_lt (by omega)
    have h2 : (tokenize s)[2]? = some ((tokenize s).getD 2 []) :=
      getD_of_lt (by omega)
    have h3 : (tokenize s)[3]? = some ((tokenize s).getD 3 []) :=
      getD_of_lt (by omega)
    have hnl : ¬ (tokenize s).length < TokensPerSentence .RMC := by
      simp only [TokensPerSentence]
      omega
    simp only [parseBranch, parseRMC, if_neg hnl, withTok, withStod, h0, h1, h2,
      h3, Option.bind, hn]
  · simp only [TokensPerSentence] at hlen
    have h0 : (tokenize s)[0]? = some ((tokenize s).getD 0 []) :=
      getD_of_lt (by omega)
    have h1 : (tokenize s)[1]? = some ((tokenize s).getD 1 []) :=
      getD_of_lt (by omega)
    have h2 : (tokenize s)[2]? = some ((tokenize s).getD 2 []) :=
      getD_of_lt (by omega)
    have h3 : (tokenize s)[3]? = some ((tokenize s).getD 3 []) :=
      getD_of_lt (by omega)
    have h4 : (tokenize s)[4]? = some ((tokenize s).getD 4 []) :=
      getD_of_lt (by omega)
    have h5 : (tokenize s)[5]? = some ((tokenize s).getD 5 []) :=
      getD_of_lt (by omega)
    have hnl : ¬ (tokenize s).length < TokensPerSentence .GGA := by
      simp only [TokensPerSentence]
      omega
    rcases hlat : stod ((tokenize s).getD 2 []) with _ | q
    · simp only [parseBranch, parseGGA, if_neg hnl, withTok, withStod, h0, h1,
        h2, Option.bind, hlat]
    · simp only [parseBranch, parseGGA, if_neg hnl, withTok, withStod, h0, h1,
        h2, h3, h4, h5, Option.bind, hlat, if_pos hg1, if_pos hg2, hn]
  · simp only [TokensPerSentence] at hlen
    have h0 : (tokenize s)[0]? = some ((tokenize s).getD 0 []) :=
      getD_of_lt (by omega)
    have h1 : (tokenize s)[1]? = some ((tokenize s).getD 1 []) :=
      getD_of_lt (by omega)
    have h2 : (tokenize s)[2]? = some ((tokenize s).getD 2 []) :=
      getD_of_lt (by omega)
    have h3 : (tokenize s)[3]? = some ((tokenize s).getD 3 []) :=
      getD_of_lt (by omega)
    have h4 : (tokenize s)[4]? = some ((tokenize s).getD 4 []) :=
      getD_of_lt (by omega)
    have hnl : ¬ (tokenize s).length < TokensPerSentence .GLL := by
      simp only [TokensPerSentence]
      omega
    rcases hlat : stod ((tokenize s).getD 1 []) with _ | q
    · simp only [parseBranch, parseGLL, if_neg hnl, withTok, withStod, h0, h1,
        Option.bind, hlat]
    · simp only [parseBranch, parseGLL, if_neg hnl, withTok, withStod, h0, h1,
        h2, h3, h4, Option.bind, hlat, if_pos hg1, if_pos hg2, hn]
  · simp only [TokensPerSentence] at hlen
    have h0 : (tokenize s)[0]? = some ((tokenize s).getD 0 []) :=
      getD_of_lt (by omega)
    have h1 : (tokenize s)[1]? = some ((tokenize s).getD 1 []) :=
      getD_of_lt (by omega)
    have h2 : (tokenize s)[2]? = some ((tokenize s).getD 2 []) :=
      getD_of_lt (by omega)
    have h3 : (tokenize s)[3]? = some ((tokenize s).getD 3 []) :=
      getD_of_lt (by omega)
    have h4 : (tokenize s)[4]? = some ((tokenize s).getD 4 []) :=
      getD_of_lt (by omega)
    have h5 : (tokenize s)[5]? = some ((tokenize s).getD 5 []) :=
      getD_of_lt (by omega)
    have h6 : (tokenize s)[6]? = some ((tokenize s).getD 6 []) :=
      getD_of_lt (by omega)
    have hnl : ¬ (tokenize s).length < TokensPerSentence .RMC := by
      simp only [TokensPerSentence]
      omega
    rcases hlat : stod ((tokenize s).getD 3 []) with _ | q
    · simp only [parseBranch, parseRMC, if_neg hnl, withTok, withStod, h0, h1,
        h2, h3, Option.bind, hlat]
    · simp only [parseBranch, parseRMC, if_neg hnl, withTok, withStod, h0, h1,
        h2, h3, h4, h5, h6, Option.bind, hlat, if_pos hg1, if_pos hg2, hn]

/-- Witness for claim C5: a valid GSA line with only 10 comma tokens,
below the minimum of 18, is rejected with MissingFields. -/
theorem claim_C5_missing_fields_witness :
    parse sampleGSA10 = .err .MissingFields :=
  claim_C5_missing_fields sampleGSA10 .GSA (by decide) (by decide)
    (Or.inl (by decide))

/-- Claim C10: every accepted GSA record carries exactly 12 satellite
entries, equal in order to tokens 3 through 14 of the sentence. -/
theorem claim_C10_gsa_satellites (s : Str) (d : GSA)
    (h : parse s = .ok (.gsa d)) :
    d.satellites.length = 12 ∧
      d.satellites = ((tokenize s).drop 3).take 12 := by
  obtain ⟨hv, t, hst, hb⟩ := parse_ok_inv h
  cases t with
  | GGA =>
    obtain ⟨g, hg, -, -⟩ := parseGGA_ok_inv hb
    cases hg
  | GLL =>
    obtain ⟨g, hg, -, -⟩ := parseGLL_ok_inv hb
    cases hg
  | GSA =>
    obtain ⟨d2, hd2, hlen, hsat⟩ := parseGSA_ok_inv hb
    cases hd2
    simp only [TokensPerSentence] at hlen
    rw [hsat, gsaSatellites_eq (tokenize s) 12 0 (by omega) (by omega)]
    constructor
    · simp only [List.length_take, List.length_drop]
      omega
    · rfl
  | GSV =>
    obtain ⟨g, hg⟩ := parseGSV_ok_inv hb
    cases hg
  | RMC =>
    obtain ⟨g, hg, -, -⟩ := parseRMC_ok_inv hb
    cases hg
  | VTG =>
    obtain ⟨g, hg⟩ := parseVTG_ok_inv hb
    cases hg
  | ZDA =>
    obtain ⟨g, hg⟩ := parseZDA_ok_inv hb
    cases hg

/-- The record parse produces for the 18-token GSA sample line. -/
def gsaExpected : GSA :=
  ⟨"$GPGSA".toList, "A".toList, "3".toList,
    ["01".toList, "02".toList, "03".toList, "04".toList, "05".toList,
      "06".toList, "07".toList, "08".toList, "09".toList, "10".toList,
      "11".toList, "12".toList],
    "1.8".toList, "1.0".toList, "1.5".toList, []⟩

/-- Witness for claim C10 at the concrete 18-token GSA line. -/
theorem claim_C10_gsa_satellites_witness :
    gsaExpected.satellites.length = 12 ∧
      gsaExpected.satellites = ((tokenize sampleGSA18).drop 3).take 12 :=
  claim_C10_gsa_satellites sampleGSA18 gsaExpected (by decide)

/-- Claim C6 counterexample: the concrete RMC sample line decodes with
an empty mode field, not the letter D the claim asserts; the letter D
is token 12 of the sentence while parse reads the mode from token 11,
the empty magnetic-variation direction field. -/
theorem claim_C6_mode_counterexample :
    parse sampleRMC = .ok (.rmc rmcExpected) ∧
      rmcExpected.mode ≠ ('D' :: []) :=
  ⟨rfl, by decide⟩

/-- Claim C6 (amended): for every accepted GGA, GLL or RMC record the
stored latitude value is the latitude numeric token divided by 100 and
the stored longitude value is the longitude numeric token divided by
100 and negated exactly when the direction letter is W; the concrete
RMC sample line decodes with utc_time 211041.00, latitude 40.2498796
north, longitude -3.4022512 west, speed 0.027 and an empty mode field
(token 11), the claimed letter D being token 12, which parse never
reads. -/
theorem claim_C6_coordinate_scaling :
    (∀ (s : Str) (g : GGA) (tk : Str) (q : ℚ),
      parse s = .ok (.gga g) → (tokenize s)[2]? = some tk →
      stod tk = some q → g.latitude.value = q / 100) ∧
    (∀ (s : Str) (g : GGA) (tk : Str) (q : ℚ),
      parse s = .ok (.gga g) → (tokenize s)[4]? = some tk →
      stod tk = some q →
      g.longitude.value = q / 100 *
        (if g.longitude.direction = 'W' then -1 else 1)) ∧
    (∀ (s : Str) (g : GLL) (tk : Str) (q : ℚ),
      parse s = .ok (.gll g) → (tokenize s)[1]? = some tk →
      stod tk = some q → g.latitude.value = q / 100) ∧
    (∀ (s : Str) (g : GLL) (tk : Str) (q : ℚ),
      parse s = .ok (.gll g) → (tokenize s)[3]? = some tk →
      stod tk = some q →
      g.longitude.value = q / 100 *
        (if g.longitude.direction = 'W' then -1 else 1)) ∧
    (∀ (s : Str) (g : RMC) (tk : Str) (q : ℚ),
      parse s = .ok (.rmc g) → (tokenize s)[3]? = some tk →
      stod tk = some q → g.latitude.value = q / 100) ∧
    (∀ (s : Str) (g : RMC) (tk : Str) (q : ℚ),
      parse s = .ok (.rmc g) → (tokenize s)[5]? = some tk →
      stod tk = some q →
      g.longitude.value = q / 100 *
        (if g.longitude.direction = 'W' then -1 else 1)) ∧
    (parse sampleRMC = .ok (.rmc rmcExpected) ∧
      rmcExpected.utc_time = "211041.00".toList ∧
      rmcExpected.latitude.value = (40.2498796 : ℚ) ∧
      rmcExpected.latitude.direction = 'N' ∧
      rmcExpected.longitude.value = (-3.4022512 : ℚ) ∧
      rmcExpected.longitude.direction = 'W' ∧
      rmcExpected.speed = "0.027".toList ∧
      rmcExpected.mode = []) := by
  refine ⟨?_, ?_, ?_, ?_, ?_, ?_, ?_⟩
  · intro s g tk q h htk hq
    obtain ⟨hv, t, hst, hb⟩ := parse_ok_inv h
    cases t with
    | GGA =>
      obtain ⟨g2, hg2, ⟨t2, q2, h2, hq2, hval⟩, -⟩ := parseGGA_ok_inv hb
      cases hg2
      rw [htk] at h2
      cases h2
      rw [hq] at hq2
      cases hq2
      exact hval
    | GLL =>
      obtain ⟨g2, hg2, -, -⟩ := parseGLL_ok_inv hb
      cases hg2
    | GSA =>
      obtain ⟨g2, hg2, -, -⟩ := parseGSA_ok_inv hb
      cases hg2
    | GSV =>
      obtain ⟨g2, hg2⟩ := parseGSV_ok_inv hb
      cases hg2
    | RMC =>
      obtain ⟨g2, hg2, -, -⟩ := parseRMC_ok_inv hb
      cases hg2
    | VTG =>
      obtain ⟨g2, hg2⟩ := parseVTG_ok_inv hb
      cases hg2
    | ZDA =>
      obtain ⟨g2, hg2⟩ := parseZDA_ok_inv hb
      cases hg2
  · intro s g tk q h htk hq
    obtain ⟨hv, t, hst, hb⟩ := parse_ok_inv h
    cases t with
    | GGA =>
      obtain ⟨g2, hg2, -, ⟨t4, q4, h4, hq4, hval⟩⟩ := parseGGA_ok_inv hb
      cases hg2
      rw [htk] at h4
      cases h4
      rw [hq] at hq4
      cases hq4
      exact hval
    | GLL =>
      obtain ⟨g2, hg2, -, -⟩ := parseGLL_ok_inv hb
      cases hg2
    | GSA =>
      obtain ⟨g2, hg2, -, -⟩ := parseGSA_ok_inv hb
      cases hg2
    | GSV =>
      obtain ⟨g2, hg2⟩ := parseGSV_ok_inv hb
      cases hg2
    | RMC =>
      obtain ⟨g2, hg2, -, -⟩ := parseRMC_ok_inv hb
      cases hg2
    | VTG =>
      obtain ⟨g2, hg2⟩ := parseVTG_ok_inv hb
      cases hg2
    | ZDA =>
      obtain ⟨g2, hg2⟩ := parseZDA_ok_inv hb
      cases hg2
  · intro s g tk q h htk hq
    obtain ⟨hv, t, hst, hb⟩ := parse_ok_inv h
    cases t with
    | GGA =>
      obtain ⟨g2, hg2, -, -⟩ := parseGGA_ok_inv hb
      cases hg2
    | GLL =>
      obtain ⟨g2, hg2, ⟨t1, q1, h1, hq1, hval⟩, -⟩ := parseGLL_ok_inv hb
      cases hg2
      rw [htk] at h1
      cases h1
      rw [hq] at hq1
      cases hq1
      exact hval
    | GSA =>
      obtain ⟨g2, hg2, -, -⟩ := parseGSA_ok_inv hb
      cases hg2
    | GSV =>
      obtain ⟨g2, hg2⟩ := parseGSV_ok_inv hb
      cases hg2
    | RMC =>
      obtain ⟨g2, hg2, -, -⟩ := parseRMC_ok_inv hb
      cases hg2
    | VTG =>
      obtain ⟨g2, hg2⟩ := parseVTG_ok_inv hb
      cases hg2
    | ZDA =>
      obtain ⟨g2, hg2⟩ := parseZDA_ok_inv hb
      cases hg2
  · intro s g tk q h htk hq
    obtain ⟨hv, t, hst, hb⟩ := parse_ok_inv h
    cases t with
    | GGA =>
      obtain ⟨g2, hg2, -, -⟩ := parseGGA_ok_inv hb
      cases hg2
    | GLL =>
      obtain ⟨g2, hg2, -, ⟨t3, q3, h3, hq3, hval⟩⟩ := parseGLL_ok_inv hb
      cases hg2
      rw [htk] at h3
      cases h3
      rw [hq] at hq3
      cases hq3
      exact hval
    | GSA =>
      obtain ⟨g2, hg2, -, -⟩ := parseGSA_ok_inv hb
      cases hg2
    | GSV =>
      obtain ⟨g2, hg2⟩ := parseGSV_ok_inv hb
      cases hg2
    | RMC =>
      obtain ⟨g2, hg2, -, -⟩ := parseRMC_ok_inv hb
      cases hg2
    | VTG =>
      obtain ⟨g2, hg2⟩ := parseVTG_ok_inv hb
      cases hg2
    | ZDA =>
      obtain ⟨g2, hg2⟩ := parseZDA_ok_inv hb
      cases hg2
  · intro s g tk q h htk hq
    obtain ⟨hv, t, hst, hb⟩ := parse_ok_inv h
    cases t with
    | GGA =>
      obtain ⟨g2, hg2, -, -⟩ := parseGGA_ok_inv hb
      cases hg2
    | GLL =>
      obtain ⟨g2, hg2, -, -⟩ := parseGLL_ok_inv hb
      cases hg2
    | GSA =>
      obtain ⟨g2, hg2, -, -⟩ := parseGSA_ok_inv hb
      cases hg2
    | GSV =>
      obtain ⟨g2, hg2⟩ := parseGSV_ok_inv hb
      cases hg2
    | RMC =>
      obtain ⟨g2, hg2, ⟨t3, q3, h3, hq3, hval⟩, -⟩ := parseRMC_ok_inv hb
      cases hg2
      rw [htk] at h3
      cases h3
      rw [hq] at hq3
      cases hq3
      exact hval
    | VTG =>
      obtain ⟨g2, hg2⟩ := parseVTG_ok_inv hb
      cases hg2
    | ZDA =>
      obtain ⟨g2, hg2⟩ := parseZDA_ok_inv hb
      cases hg2
  · intro s g tk q h htk hq
    obtain ⟨hv, t, hst, hb⟩ := parse_ok_inv h
    cases t with
    | GGA =>
      obtain ⟨g2, hg2, -, -⟩ := parseGGA_ok_inv hb
      cases hg2
    | GLL =>
      obtain ⟨g2, hg2, -, -⟩ := parseGLL_ok_inv hb
      cases hg2
    | GSA =>
      obtain ⟨g2, hg2, -, -⟩ := parseGSA_ok_inv hb
      cases hg2
    | GSV =>
      obtain ⟨g2, hg2⟩ := parseGSV_ok_inv hb
      cases hg2
    | RMC =>
      obtain ⟨g2, hg2, -, ⟨t5, q5, h5, hq5, hval⟩⟩ := parseRMC_ok_inv hb
      cases hg2
      rw [htk] at h5
      cases h5
      rw [hq] at hq5
      cases hq5
      exact hval
    | VTG =>
      obtain ⟨g2, hg2⟩ := parseVTG_ok_inv hb
      cases hg2
    | ZDA =>
      obtain ⟨g2, hg2⟩ := parseZDA_ok_inv hb
      cases hg2
  · refine ⟨rfl, rfl, ?_, rfl, ?_, rfl, rfl, rfl⟩
    · show ((4024 : ℚ) + 98796 / 10 ^ 5) / 100 = (40.2498796 : ℚ)
      norm_num
    · show ((340 : ℚ) + 22512 / 10 ^ 5) / 100 * (-1) = (-3.4022512 : ℚ)
      norm_num

/-- Witness for claim C6, instantiating the RMC latitude rule at the
concrete sample line. -/
theorem claim_C6_coordinate_scaling_witness :
    rmcExpected.latitude.value = ((4024 : ℚ) + 98796 / 10 ^ 5) / 100 :=
  claim_C6_coordinate_scaling.2.2.2.2.1 sampleRMC rmcExpected
    ("4024.98796".toList) ((4024 : ℚ) + 98796 / 10 ^ 5) rfl (by decide) rfl

/-- Claim C7 counterexample: a valid 15-token GGA line whose latitude
numeric and latitude direction tokens are both the letter X yields
MissingFields, not the InvalidDirection the claim asserts for a bad
direction token, because the latitude numeric token is converted
before any direction is checked; a second valid line with the letter X
as latitude numeric token and as longitude direction token shows the
same masking for a bad longitude direction. -/
theorem claim_C7_direction_counterexample :
    ((tokenize sampleGGABadLat).getD 3 [] = ('X' :: []) ∧
      stod ((tokenize sampleGGABadLat).getD 2 []) = none ∧
      parse sampleGGABadLat = .err .MissingFields ∧
      parse sampleGGABadLat ≠ .err .InvalidDirection) ∧
    ((tokenize sampleGGAMaskedLon).getD 5 [] = ('X' :: []) ∧
      stod ((tokenize sampleGGAMaskedLon).getD 2 []) = none ∧
      parse sampleGGAMaskedLon = .err .MissingFields ∧
      parse sampleGGAMaskedLon ≠ .err .InvalidDirection) :=
  ⟨⟨by decide, by decide, by decide, by decide⟩,
    ⟨by decide, by decide, by decide, by decide⟩⟩

/-- Claim C7 (amended): for GGA, GLL and RMC sentences meeting their
minimum token count, a direction token that is empty or does not start
with one of the two legal letters for its axis yields InvalidDirection
whenever the latitude numeric token parses — for the latitude
direction and for the longitude direction alike, since the sentence is
rejected with InvalidDirection at the first bad direction in either
position; when the latitude numeric token fails to parse, the result
is MissingFields instead, masking both direction checks, because that
conversion is the first step of every coordinate block.  Only the
longitude direction is validated before its own numeric value is
computed. -/
theorem claim_C7_direction :
    (∀ (s : Str) (q : ℚ), is_valid_sample s = true →
      sentenceType ((tokenize s).headI) = some .GGA →
      TokensPerSentence .GGA ≤ (tokenize s).length →
      stod ((tokenize s).getD 2 []) = some q →
      ¬ dirOk ((tokenize s).getD 3 []) 'N' 'S' →
      parse s = .err .InvalidDirection) ∧
    (∀ (s : Str) (q : ℚ), is_valid_sample s = true →
      sentenceType ((tokenize s).headI) = some .GGA →
      TokensPerSentence .GGA ≤ (tokenize s).length →
      stod ((tokenize s).getD 2 []) = some q →
      ¬ dirOk ((tokenize s).getD 5 []) 'E' 'W' →
      parse s = .err .InvalidDirection) ∧
    (∀ (s : Str) (q : ℚ), is_valid_sample s = true →
      sentenceType ((tokenize s).headI) = some .GLL →
      TokensPerSentence .GLL ≤ (tokenize s).length →
      stod ((tokenize s).getD 1 []) = some q →
      ¬ dirOk ((tokenize s).getD 2 []) 'N' 'S' →
      parse s = .err .InvalidDirection) ∧
    (∀ (s : Str) (q : ℚ), is_valid_sample s = true →
      sentenceType ((tokenize s).headI) = some .GLL →
      TokensPerSentence .GLL ≤ (tokenize s).length →
      stod ((tokenize s).getD 1 []) = some q →
      ¬ dirOk ((tokenize s).getD 4 []) 'E' 'W' →
      parse s = .err .InvalidDirection) ∧
    (∀ (s : Str) (q : ℚ), is_valid_sample s = true →
      sentenceType ((tokenize s).headI) = some .RMC →
      TokensPerSentence .RMC ≤ (tokenize s).length →
      stod ((tokenize s).getD 3 []) = some q →
      ¬ dirOk ((tokenize s).getD 4 []) 'N' 'S' →
      parse s = .err .InvalidDirection) ∧
    (∀ (s : Str) (q : ℚ), is_valid_sample s = true →
      sentenceType ((tokenize s).headI) = some .RMC →
      TokensPerSentence .RMC ≤ (tokenize s).length →
      stod ((tokenize s).getD 3 []) = some q →
      ¬ dirOk ((tokenize s).getD 6 []) 'E' 'W' →
      parse s = .err .InvalidDirection) ∧
    (∀ s : Str, is_valid_sample s = true →
      sentenceType ((tokenize s).headI) = some .GGA →
      TokensPerSentence .GGA ≤ (tokenize s).length →
      stod ((tokenize s).getD 2 []) = none →
      parse s = .err .MissingFields) ∧
    (∀ s : Str, is_valid_sample s = true →
      sentenceType ((tokenize s).headI) = some .GLL →
      TokensPerSentence .GLL ≤ (tokenize s).length →
      stod ((tokenize s).getD 1 []) = none →
      parse s = .err .MissingFields) ∧
    (∀ s : Str, is_valid_sample s = true →
      sentenceType ((tokenize s).headI) = some .RMC →
      TokensPerSentence .RMC ≤ (tokenize s).length →
      stod ((tokenize s).getD 3 []) = none →
      parse s = .err .MissingFields) := by
  refine ⟨?_, ?_, ?_, ?_, ?_, ?_, ?_, ?_, ?_⟩
  · intro s q hv ht hlen hq hbad
    rw [parse_eq_branch hv ht]
    simp only [TokensPerSentence] at hlen
    have h0 : (tokenize s)[0]? = some ((tokenize s).getD 0 []) :=
      getD_of_lt (by omega)
    have h1 : (tokenize s)[1]? = some ((tokenize s).getD 1 []) :=
      getD_of_lt (by omega)
    have h2 : (tokenize s)[2]? = some ((tokenize s).getD 2 []) :=
      getD_of_lt (by omega)
    have h3 : (tokenize s)[3]? = some ((tokenize s).getD 3 []) :=
      getD_of_lt (by omega)
    have hnl : ¬ (tokenize s).length < TokensPerSentence .GGA := by
      simp only [TokensPerSentence]
      omega
    simp only [parseBranch, parseGGA, if_neg hnl, withTok, withStod, h0, h1, h2,
      h3, Option.bind, hq, if_neg hbad]
  · intro s q hv ht hlen hq hbad
    rw [parse_eq_branch hv ht]
    simp only [TokensPerSentence] at hlen
    have h0 : (tokenize s)[0]? = some ((tokenize s).getD 0 []) :=
      getD_of_lt (by omega)
    have h1 : (tokenize s)[1]? = some ((tokenize s).getD 1 []) :=
      getD_of_lt (by omega)
    have h2 : (tokenize s)[2]? = some ((tokenize s).getD 2 []) :=
      getD_of_lt (by omega)
    have h3 : (tokenize s)[3]? = some ((tokenize s).getD 3 []) :=
      getD_of_lt (by omega)
    have h5 : (tokenize s)[5]? = some ((tokenize s).getD 5 []) :=
      getD_of_lt (by omega)
    have hnl : ¬ (tokenize s).length < TokensPerSentence .GGA := by
      simp only [TokensPerSentence]
      omega
    by_cases hgood : dirOk ((tokenize s).getD 3 []) 'N' 'S'
    · simp only [parseBranch, parseGGA, if_neg hnl, withTok, withStod, h0, h1,
        h2, h3, h5, Option.bind, hq, if_pos hgood, if_neg hbad]
    · simp only [parseBranch, parseGGA, if_neg hnl, withTok, withStod, h0, h1,
        h2, h3, Option.bind, hq, if_neg hgood]
  · intro s q hv ht hlen hq hbad
    rw [parse_eq_branch hv ht]
    simp only [TokensPerSentence] at hlen
    have h0 : (tokenize s)[0]? = some ((tokenize s).getD 0 []) :=
      getD_of_lt (by omega)
    have h1 : (tokenize s)[1]? = some ((tokenize s).getD 1 []) :=
      getD_of_lt (by omega)
    have h2 : (tokenize s)[2]? = some ((tokenize s).getD 2 []) :=
      getD_of_lt (by omega)
    have hnl : ¬ (tokenize s).length < TokensPerSentence .GLL := by
      simp only [TokensPerSentence]
      omega
    simp only [parseBranch, parseGLL, if_neg hnl, withTok, withStod, h0, h1, h2,
      Option.bind, hq, if_neg hbad]
  · intro s q hv ht hlen hq hbad
    rw [parse_eq_branch hv ht]
    simp only [TokensPerSentence] at hlen
    have h0 : (tokenize s)[0]? = some ((tokenize s).getD 0 []) :=
      getD_of_lt (by omega)
    have h1 : (tokenize s)[1]? = some ((tokenize s).getD 1 []) :=
      getD_of_lt (by omega)
    have h2 : (tokenize s)[2]? = some ((tokenize s).getD 2 []) :=
      getD_of_lt (by omega)
    have h4 : (tokenize s)[4]? = some ((tokenize s).getD 4 []) :=
      getD_of_lt (by omega)
    have hnl : ¬ (tokenize s).length < TokensPerSentence .GLL := by
      simp only [TokensPerSentence]
      omega
    by_cases hgood : dirOk ((tokenize s).getD 2 []) 'N' 'S'
    · simp only [parseBranch, parseGLL, if_neg hnl, withTok, withStod, h0, h1,
        h2, h4, Option.bind, hq, if_pos hgood, if_neg hbad]
    · simp only [parseBranch, parseGLL, if_neg hnl, withTok, withStod, h0, h1,
        h2, Option.bind, hq, if_neg hgood]
  · intro s q hv ht hlen hq hbad
    rw [parse_eq_branch hv ht]
    simp only [TokensPerSentence] at hlen
    have h0 : (tokenize s)[0]? = some ((tokenize s).getD 0 []) :=
      getD_of_lt (by omega)
    have h1 : (tokenize s)[1]? = some ((tokenize s).getD 1 []) :=
      getD_of_lt (by omega)
    have h2 : (tokenize s)[2]? = some ((tokenize s).getD 2 []) :=
      getD_of_lt (by omega)
    have h3 : (tokenize s)[3]? = some ((tokenize s).getD 3 []) :=
      getD_of_lt (by omega)
    have h4 : (tokenize s)[4]? = some ((tokenize s).getD 4 []) :=
      getD_of_lt (by omega)
    have hnl : ¬ (tokenize s).length < TokensPerSentence .RMC := by
      simp only [TokensPerSentence]
      omega
    simp only [parseBranch, parseRMC, if_neg hnl, withTok, withStod, h0, h1, h2,
      h3, h4, Option.bind, hq, if_neg hbad]
  · intro s q hv ht hlen hq hbad
    rw [parse_eq_branch hv ht]
    simp only [TokensPerSentence] at hlen
    have h0 : (tokenize s)[0]? = some ((tokenize s).getD 0 []) :=
      getD_of_lt (by omega)
    have h1 : (tokenize s)[1]? = some ((tokenize s).getD 1 []) :=
      getD_of_lt (by omega)
    have h2 : (tokenize s)[2]? = some ((tokenize s).getD 2 []) :=
      getD_of_lt (by omega)
    have h3 : (tokenize s)[3]? = some ((tokenize s).getD 3 []) :=
      getD_of_lt (by omega)
    have h4 : (tokenize s)[4]? = some ((tokenize s).getD 4 []) :=
      getD_of_lt (by omega)
    have h6 : (tokenize s)[6]? = some ((tokenize s).getD 6 []) :=
      getD_of_lt (by omega)
    have hnl : ¬ (tokenize s).length < TokensPerSentence .RMC := by
      simp only [TokensPerSentence]
      omega
    by_cases hgood : dirOk ((tokenize s).getD 4 []) 'N' 'S'
    · simp only [parseBranch, parseRMC, if_neg hnl, withTok, withStod, h0, h1,
        h2, h3, h4, h6, Option.bind, hq, if_pos hgood, if_neg hbad]
    · simp only [parseBranch, parseRMC, if_neg hnl, withTok, withStod, h0, h1,
        h2, h3, h4, Option.bind, hq, if_neg hgood]
  · intro s hv ht hlen hq
    rw [parse_eq_branch hv ht]
    simp only [TokensPerSentence] at hlen
    have h0 : (tokenize s)[0]? = some ((tokenize s).getD 0 []) :=
      getD_of_lt (by omega)
    have h1 : (tokenize s)[1]? = some ((tokenize s).getD 1 []) :=
      getD_of_lt (by omega)
    have h2 : (tokenize s)[2]? = some ((tokenize s).getD 2 []) :=
      getD_of_lt (by omega)
    have hnl : ¬ (tokenize s).length < TokensPerSentence .GGA := by
      simp only [TokensPerSentence]
      omega
    simp only [parseBranch, parseGGA, if_neg hnl, withTok, withStod, h0, h1, h2,
      Option.bind, hq]
  · intro s hv ht hlen hq
    rw [parse_eq_branch hv ht]
    simp only [TokensPerSentence] at hlen
    have h0 : (tokenize s)[0]? = some ((tokenize s).getD 0 []) :=
      getD_of_lt (by omega)
    have h1 : (tokenize s)[1]? = some ((tokenize s).getD 1 []) :=
      getD_of_lt (by omega)
    have hnl : ¬ (tokenize s).length < TokensPerSentence .GLL := by
      simp only [TokensPerSentence]
      omega
    simp only [parseBranch, parseGLL, if_neg hnl, withTok, withStod, h0, h1,
      Option.bind, hq]
  · intro s hv ht hlen hq
    rw [parse_eq_branch hv ht]
    simp only [TokensPerSentence] at hlen
    have h0 : (tokenize s)[0]? = some ((tokenize s).getD 0 []) :=
      getD_of_lt (by omega)
    have h1 : (tokenize s)[1]? = some ((tokenize s).getD 1 []) :=
      getD_of_lt (by omega)
    have h2 : (tokenize s)[2]? = some ((tokenize s).getD 2 []) :=
      getD_of_lt (by omega)
    have h3 : (tokenize s)[3]? = some ((tokenize s).getD 3 []) :=
      getD_of_lt (by omega)
    have hnl : ¬ (tokenize s).length < TokensPerSentence .RMC := by
      simp only [TokensPerSentence]
      omega
    simp only [parseBranch, parseRMC, if_neg hnl, withTok, withStod, h0, h1, h2,
      h3, Option.bind, hq]

/-- Witness for claim C7: a valid GGA line with a well-formed latitude
numeric token and the letter X as latitude direction is rejected with
InvalidDirection. -/
theorem claim_C7_direction_witness :
    parse sampleGGABadDir = .err .InvalidDirection :=
  claim_C7_direction.1 sampleGGABadDir ((4024 : ℚ) + 98796 / 10 ^ 5)
    (by decide) (by decide) (by decide) rfl (by decide)

end GpsLib
